import Mathlib

/-!
Verification development for the CampsiteReservationChecker repository.

The repository has two variants of the same program:
  * `check_campsites.py` (Playwright driver, command-line loop), and
  * `check_campsites_selenium.py` (Selenium driver, FastAPI background task).

Each variant consists of
  * a classifier `check_availability` that drives one browser probe and
    reduces it to a status string in
    `SUCCESS_FOUND / SUCCESS_NOT_FOUND / FAILURE`,
  * a notifier `send_pushover_notification`, and
  * a monitor loop that maintains a `consecutive_failures` counter, stops
    after `MAX_CONSECUTIVE_FAILURES` consecutive failures, and sends a
    notification on every `SUCCESS_FOUND` cycle.

The browser is embedded as a behaviour record: one field per wait/click
primitive the Python code performs, each reporting whether that primitive
succeeded, timed out, or raised an unexpected error.  The classifier
definitions below mirror the Python control flow (try/except nesting and
early returns) over those signals.  Observable side effects (browser
launch, navigation, screenshot writes) are collected in an effect trace,
and an exception escaping the Python function is modelled by the
`CallResult.raised` constructor.
-/

/-- Status strings returned by `check_availability` in both variants. -/
inductive Status where
  | SUCCESS_FOUND
  | SUCCESS_NOT_FOUND
  | FAILURE
deriving DecidableEq, Repr

/-- Result of one browser primitive (a navigation, a bounded wait, or a
click): it succeeded, it timed out (driver timeout exception), or it raised
some other unexpected exception. -/
inductive StepRes where
  | ok
  | timeout
  | err
deriving DecidableEq, Repr

/-- Behaviour of the browser primitives used by the Playwright variant's
`check_availability`, in the order the code performs them:
browser launch / context / page creation (lines 57-62, outside the `try`),
`page.goto` (line 66), the Arrival and Departure label waits (lines 69-70),
the List-view click (line 74), and the bounded wait for the
"No Available Sites" text (lines 78-79).  For the marker wait, `ok` means
the marker became visible within the window and `timeout` means the window
elapsed without it appearing. -/
structure PwProbe where
  launch : StepRes
  goto : StepRes
  waitArrival : StepRes
  waitDeparture : StepRes
  clickListView : StepRes
  marker : StepRes
deriving DecidableEq, Repr

/-- Behaviour of the browser primitives used by the Selenium variant's
`check_availability`: driver setup (`ChromeDriverManager().install()` and
`webdriver.Chrome`, lines 75-76, outside the `try`), `driver.get`
(line 80), the wait for the `arrival-date-field` anchor (line 85), the
List-view clickable-wait plus scripted click (lines 90-92), and the bounded
wait for the "No Available Sites" heading (lines 99-100). -/
structure SelProbe where
  setup : StepRes
  get : StepRes
  waitAnchor : StepRes
  clickList : StepRes
  marker : StepRes
deriving DecidableEq, Repr

/-- Observable side effects of one classifier call. -/
inductive Effect where
  | launchBrowser
  | navigate (url : String)
  | screenshotWrite (path : String)
deriving DecidableEq, Repr

/-- Result of one Python call: a normal return carrying the status and the
effect trace, or an exception escaping the function (with the effects
performed before the raise). -/
inductive CallResult where
  | ret (s : Status) (effs : List Effect)
  | raised (effs : List Effect)
deriving DecidableEq, Repr

/-- Status of a call that returned normally, `none` if it raised. -/
def resultStatus : CallResult → Option Status
  | CallResult.ret s _ => some s
  | CallResult.raised _ => none

/-- Effect trace of a call, whether it returned or raised. -/
def callEffects : CallResult → List Effect
  | CallResult.ret _ effs => effs
  | CallResult.raised effs => effs

/-- Python falsiness of an optional environment string: `os.getenv` gives
`None` when the variable is unset, and the empty string is also falsy. -/
def falsy : Option String → Bool
  | none => true
  | some s => s == ""

/-- Playwright variant `check_availability` (check_campsites.py, lines
47-100).  If `TARGET_URL` is falsy, return `'FAILURE'` at once (lines
51-53).  Browser launch happens before the `try` block, so a launch
exception escapes the function.  Inside the `try`, a timeout or unexpected
error in navigation, either anchor wait, or the List-view click is caught
by the two outer handlers, which write `error_screenshot.png` and return
`'FAILURE'`.  The marker wait's own `try` catches only the timeout
exception (→ `'SUCCESS_FOUND'`); the marker appearing gives
`'SUCCESS_NOT_FOUND'`, and any other exception during that wait falls to
the outer generic handler (screenshot, `'FAILURE'`). -/
def check_availability (TARGET_URL : Option String) (b : PwProbe) : CallResult :=
  if falsy TARGET_URL then CallResult.ret Status.FAILURE []
  else
    match b.launch with
    | StepRes.ok =>
      let pre := [Effect.launchBrowser, Effect.navigate (TARGET_URL.getD "")]
      let failed := CallResult.ret Status.FAILURE
        (pre ++ [Effect.screenshotWrite "error_screenshot.png"])
      match b.goto with
      | StepRes.ok =>
        match b.waitArrival with
        | StepRes.ok =>
          match b.waitDeparture with
          | StepRes.ok =>
            match b.clickListView with
            | StepRes.ok =>
              match b.marker with
              | StepRes.ok => CallResult.ret Status.SUCCESS_NOT_FOUND pre
              | StepRes.timeout => CallResult.ret Status.SUCCESS_FOUND pre
              | StepRes.err => failed
            | _ => failed
          | _ => failed
        | _ => failed
      | _ => failed
    | _ => CallResult.raised [Effect.launchBrowser]

/-- Selenium variant `check_availability` (check_campsites_selenium.py,
lines 57-120).  Same shape: falsy `TARGET_URL` → `'FAILURE'` (lines 59-61);
driver setup precedes the `try` so a setup exception escapes; failures of
`driver.get`, the anchor wait, or the List-view click are caught by the two
outer handlers (screenshot via `driver.save_screenshot`, `'FAILURE'`); the
marker wait's `TimeoutException` is caught inside (→ `'SUCCESS_FOUND'`),
the marker appearing gives `'SUCCESS_NOT_FOUND'`, any other exception there
reaches the outer generic handler. -/
def check_availability_selenium (TARGET_URL : Option String) (b : SelProbe) : CallResult :=
  if falsy TARGET_URL then CallResult.ret Status.FAILURE []
  else
    match b.setup with
    | StepRes.ok =>
      let pre := [Effect.launchBrowser, Effect.navigate (TARGET_URL.getD "")]
      let failed := CallResult.ret Status.FAILURE
        (pre ++ [Effect.screenshotWrite "error_screenshot.png"])
      match b.get with
      | StepRes.ok =>
        match b.waitAnchor with
        | StepRes.ok =>
          match b.clickList with
          | StepRes.ok =>
            match b.marker with
            | StepRes.ok => CallResult.ret Status.SUCCESS_NOT_FOUND pre
            | StepRes.timeout => CallResult.ret Status.SUCCESS_FOUND pre
            | StepRes.err => failed
          | _ => failed
        | _ => failed
      | _ => failed
    | _ => CallResult.raised [Effect.launchBrowser]

/-- Failure ceiling, `MAX_CONSECUTIVE_FAILURES = 3` in both variant files. -/
def MAX_CONSECUTIVE_FAILURES : Nat := 3

/-- Notification side effects a monitor-loop cycle can trigger. -/
inductive Event where
  | notifyAvailable
  | notifyStopped
deriving DecidableEq, Repr

/-- Record of one executed monitor-loop cycle: the status the classifier
returned, the value of `consecutive_failures` after this cycle's update,
and the notification events triggered this cycle. -/
structure CycleRec where
  outcome : Status
  failures : Nat
  events : List Event
deriving DecidableEq, Repr

/-- Playwright variant monitor loop (check_campsites.py, lines 106-128),
run over a finite schedule of classifier outcomes, one per cycle.  Each
cycle: on `'FAILURE'` increment the counter and, when it reaches
`MAX_CONSECUTIVE_FAILURES`, send the "stopped" notification and `break`;
otherwise reset the counter to 0; then on `'SUCCESS_FOUND'` send the
availability notification.  Returns the executed cycle records, the final
counter, and whether the loop stopped fatally. -/
def runLoop_pw : Nat → List Status → List CycleRec × Nat × Bool
  | consecutive_failures, [] => ([], consecutive_failures, false)
  | consecutive_failures, status :: rest =>
    if status = Status.FAILURE then
      let cf := consecutive_failures + 1
      if MAX_CONSECUTIVE_FAILURES ≤ cf then
        ([⟨status, cf, [Event.notifyStopped]⟩], cf, true)
      else
        let r := runLoop_pw cf rest
        (⟨status, cf, []⟩ :: r.1, r.2)
    else
      let events := if status = Status.SUCCESS_FOUND then [Event.notifyAvailable] else []
      let r := runLoop_pw 0 rest
      (⟨status, 0, events⟩ :: r.1, r.2)

/-- Selenium variant monitor loop (`background_checker_task`,
check_campsites_selenium.py, lines 124-145), over the same schedule shape:
identical counter update, fatal-stop `break`, and notification rules. -/
def runLoop_sel : Nat → List Status → List CycleRec × Nat × Bool
  | consecutive_failures, [] => ([], consecutive_failures, false)
  | consecutive_failures, status :: rest =>
    if status = Status.FAILURE then
      let cf := consecutive_failures + 1
      if MAX_CONSECUTIVE_FAILURES ≤ cf then
        ([⟨status, cf, [Event.notifyStopped]⟩], cf, true)
      else
        let r := runLoop_sel cf rest
        (⟨status, cf, []⟩ :: r.1, r.2)
    else
      let events := if status = Status.SUCCESS_FOUND then [Event.notifyAvailable] else []
      let r := runLoop_sel 0 rest
      (⟨status, 0, events⟩ :: r.1, r.2)

/-- Length of the trailing run of `'FAILURE'` outcomes at the end of a
schedule (the spec's "trailing run of FAILED outcomes ending at cycle N"). -/
def trailingFailures (l : List Status) : Nat :=
  (l.reverse.takeWhile fun s => s == Status.FAILURE).length

/-- The monitor loop's counter update (increment on `'FAILURE'`, reset to 0
otherwise) folded over a schedule from a starting counter value. -/
def cfRun (cf : Nat) (l : List Status) : Nat :=
  l.foldl (fun c s => if s = Status.FAILURE then c + 1 else 0) cf

/-- Total number of "stopped" notifications in a list of cycle records. -/
def stoppedCount (recs : List CycleRec) : Nat :=
  (recs.map fun r => r.events.count Event.notifyStopped).sum

/-- Process-wide configuration read from the environment by both variants. -/
structure Config where
  TARGET_URL : Option String
  PUSHOVER_API_TOKEN : Option String
  PUSHOVER_USER_KEY : Option String
deriving DecidableEq, Repr

/-- Form payload a Pushover POST carries (`url`/`url_title` optional). -/
structure Payload where
  token : String
  user : String
  message : String
  title : String
  priority : Nat
  url : Option String
  url_title : Option String
deriving DecidableEq, Repr

/-- Outcome of the single `requests.post` call: an HTTP status code, or a
network-level `requests.RequestException`. -/
inductive PostOutcome where
  | status (code : Nat)
  | netError
deriving DecidableEq, Repr

/-- Does `s` start with `pat` (on character lists)? -/
def startsWithSub : List Char → List Char → Bool
  | [], _ => true
  | _ :: _, [] => false
  | p :: ps, c :: cs => p == c && startsWithSub ps cs

/-- Does `pat` occur as a contiguous sublist of `l`? -/
def hasSub (pat : List Char) : List Char → Bool
  | [] => pat.isEmpty
  | c :: cs => startsWithSub pat (c :: cs) || hasSub pat cs

/-- Python's `pat in s` substring test. -/
def strContains (s pat : String) : Bool :=
  hasSub pat.toList s.toList

/-- Playwright variant `send_pushover_notification` (check_campsites.py,
lines 23-44).  Returns the list of POST attempts made (at most one) and the
log line printed.  Missing credentials skip the POST entirely; the payload
gains `url`/`url_title` fields exactly when the message contains
"book it now"; the response status only selects a log line; a network
exception is caught and logged.  The function returns normally on every
path. -/
def send_pushover_notification (cfg : Config) (message : String) (title : String)
    (net : PostOutcome) : List Payload × String :=
  if falsy cfg.PUSHOVER_API_TOKEN || falsy cfg.PUSHOVER_USER_KEY then
    ([], "Pushover credentials are not set in the .env file. Skipping notification.")
  else
    let payload : Payload :=
      if strContains message "book it now" then
        ⟨cfg.PUSHOVER_API_TOKEN.getD "", cfg.PUSHOVER_USER_KEY.getD "",
          message, title, 1, cfg.TARGET_URL, some "Book Now!"⟩
      else
        ⟨cfg.PUSHOVER_API_TOKEN.getD "", cfg.PUSHOVER_USER_KEY.getD "",
          message, title, 1, none, none⟩
    let log :=
      match net with
      | PostOutcome.status 200 => "Notification sent successfully!"
      | PostOutcome.status _ => "Failed to send notification."
      | PostOutcome.netError =>
        "An error occurred while sending the Pushover notification."
    ([payload], log)

/-- Selenium variant `send_pushover_notification`
(check_campsites_selenium.py, lines 39-54): identical credential guard and
payload construction; it does not inspect the response status, so any HTTP
response logs the success line; a network exception is caught and logged. -/
def send_pushover_notification_selenium (cfg : Config) (message : String) (title : String)
    (net : PostOutcome) : List Payload × String :=
  if falsy cfg.PUSHOVER_API_TOKEN || falsy cfg.PUSHOVER_USER_KEY then
    ([], "Pushover credentials are not set. Skipping notification.")
  else
    let payload : Payload :=
      if strContains message "book it now" then
        ⟨cfg.PUSHOVER_API_TOKEN.getD "", cfg.PUSHOVER_USER_KEY.getD "",
          message, title, 1, cfg.TARGET_URL, some "Book Now!"⟩
      else
        ⟨cfg.PUSHOVER_API_TOKEN.getD "", cfg.PUSHOVER_USER_KEY.getD "",
          message, title, 1, none, none⟩
    let log :=
      match net with
      | PostOutcome.status _ => "Notification sent successfully!"
      | PostOutcome.netError =>
        "An error occurred while sending the Pushover notification."
    ([payload], log)

/-- The availability message of both variants (contains "book it now"). -/
def notification_message : String :=
  "A site may be available for your selected dates! Go book it now!"

/-- The fatal-stop message of the Playwright variant. -/
def failure_message : String :=
  "Campsite script stopped after 3 failed attempts to access the website."

/-- Environment of one composed cycle: the browser behaviour for the probe
and the network behaviour for any notification POST made this cycle. -/
structure CycleEnv where
  probe : PwProbe
  net : PostOutcome
deriving DecidableEq, Repr

/-- Record of one composed cycle: classifier status, counter value after
this cycle, and the POST attempts the notifier actually made. -/
structure MainRec where
  outcome : Status
  failures : Nat
  attempts : List Payload
deriving DecidableEq, Repr

/-- How a composed run of the Playwright `__main__` loop ended: the cycle
schedule ran out with the loop still alive, the loop stopped fatally, or an
exception escaped `check_availability` and crashed the loop (the loop body
catches only `KeyboardInterrupt`). -/
inductive ExitKind where
  | ranOut
  | fatalStop
  | crashed
deriving DecidableEq, Repr

/-- Composed Playwright run (check_campsites.py, lines 102-132): each cycle
calls `check_availability` and then applies the counter / fatal-stop /
notification logic, with notification attempts produced by
`send_pushover_notification` on the real configuration.  A raise escaping
`check_availability` ends the run as `crashed`. -/
def runMain (cfg : Config) : Nat → List CycleEnv → List MainRec × Nat × ExitKind
  | consecutive_failures, [] => ([], consecutive_failures, ExitKind.ranOut)
  | consecutive_failures, e :: rest =>
    match resultStatus (check_availability cfg.TARGET_URL e.probe) with
    | none => ([], consecutive_failures, ExitKind.crashed)
    | some status =>
      if status = Status.FAILURE then
        let cf := consecutive_failures + 1
        if MAX_CONSECUTIVE_FAILURES ≤ cf then
          ([⟨status, cf,
            (send_pushover_notification cfg failure_message "Campsite Script Error" e.net).1⟩],
            cf, ExitKind.fatalStop)
        else
          let r := runMain cfg cf rest
          (⟨status, cf, []⟩ :: r.1, r.2)
      else
        let attempts :=
          if status = Status.SUCCESS_FOUND then
            (send_pushover_notification cfg notification_message "Campsite Available!" e.net).1
          else []
        let r := runMain cfg 0 rest
        (⟨status, 0, attempts⟩ :: r.1, r.2)

/-- Common abstract probe-signal record used to compare the two variants:
session setup, page load, anchor visibility, the view-mode switch, and the
marker wait. -/
structure ProbeSignals where
  setup : StepRes
  nav : StepRes
  anchors : StepRes
  viewSwitch : StepRes
  marker : StepRes
deriving DecidableEq, Repr

/-- Interpretation of the common signals by the Playwright probe: both
anchor waits (Arrival and Departure labels) report the anchor signal. -/
def toPw (s : ProbeSignals) : PwProbe :=
  ⟨s.setup, s.nav, s.anchors, s.anchors, s.viewSwitch, s.marker⟩

/-- Interpretation of the common signals by the Selenium probe. -/
def toSel (s : ProbeSignals) : SelProbe :=
  ⟨s.setup, s.nav, s.anchors, s.viewSwitch, s.marker⟩

lemma trailingFailures_append (l : List Status) (s : Status) :
    trailingFailures (l ++ [s]) =
      if s = Status.FAILURE then trailingFailures l + 1 else 0 := by
  simp only [trailingFailures, List.reverse_append, List.reverse_cons,
    List.reverse_nil, List.nil_append, List.cons_append, List.takeWhile_cons]
  rcases s <;> simp

lemma cfRun_append (cf : Nat) (l : List Status) (s : Status) :
    cfRun cf (l ++ [s]) = if s = Status.FAILURE then cfRun cf l + 1 else 0 := by
  simp [cfRun, List.foldl_append]

lemma cfRun_zero_eq_trailing (l : List Status) :
    cfRun 0 l = trailingFailures l := by
  induction l using List.reverseRecOn with
  | nil => rfl
  | append_singleton l s ih =>
    rw [cfRun_append, trailingFailures_append, ih]

lemma runLoop_pw_eq_sel (l : List Status) : ∀ cf, runLoop_pw cf l = runLoop_sel cf l := by
  induction l with
  | nil => intro cf; rfl
  | cons s rest ih => intro cf; simp [runLoop_pw, runLoop_sel, ih]

lemma runLoop_pw_full_cf (l : List Status) :
    ∀ cf, (runLoop_pw cf l).1.length = l.length → (runLoop_pw cf l).2.1 = cfRun cf l := by
  induction l with
  | nil => intro cf _; rfl
  | cons s rest ih =>
    intro cf hlen
    by_cases hs : s = Status.FAILURE
    · by_cases hmax : MAX_CONSECUTIVE_FAILURES ≤ cf + 1
      · simp [runLoop_pw, hs, hmax] at hlen
        have hrest : rest = [] := by
          cases rest with
          | nil => rfl
          | cons a t => simp at hlen
        subst hrest
        simp [runLoop_pw, cfRun, hs, hmax]
      · simp only [runLoop_pw, if_pos hs, if_neg hmax, List.length_cons] at hlen ⊢
        rw [ih (cf + 1) (by simpa using hlen)]
        simp [cfRun, hs]
    · simp only [runLoop_pw, if_neg hs, List.length_cons] at hlen ⊢
      rw [ih 0 (by simpa using hlen)]
      simp [cfRun, hs]

lemma runLoop_pw_not_stopped (l : List Status) :
    ∀ cf, (runLoop_pw cf l).2.2 = false →
      (runLoop_pw cf l).1.map CycleRec.outcome = l ∧
      (cf < MAX_CONSECUTIVE_FAILURES →
        (runLoop_pw cf l).2.1 < MAX_CONSECUTIVE_FAILURES ∧
        ∀ r ∈ (runLoop_pw cf l).1, r.failures < MAX_CONSECUTIVE_FAILURES) := by
  induction l with
  | nil =>
    intro cf _
    exact ⟨rfl, fun h => ⟨h, by simp [runLoop_pw]⟩⟩
  | cons s rest ih =>
    intro cf hstop
    by_cases hs : s = Status.FAILURE
    · by_cases hmax : MAX_CONSECUTIVE_FAILURES ≤ cf + 1
      · simp [runLoop_pw, hs, hmax] at hstop
      · simp only [runLoop_pw, if_pos hs, if_neg hmax] at hstop ⊢
        obtain ⟨hmap, hcf⟩ := ih (cf + 1) hstop
        refine ⟨by simp [hmap, hs], fun _ => ?_⟩
        obtain ⟨hlt, hall⟩ := hcf (by omega)
        refine ⟨hlt, fun r hr => ?_⟩
        rcases List.mem_cons.mp hr with h | h
        · subst h; simpa using Nat.lt_of_not_le hmax
        · exact hall r h
    · simp only [runLoop_pw, if_neg hs] at hstop ⊢
      obtain ⟨hmap, hcf⟩ := ih 0 hstop
      refine ⟨by simp [hmap], fun _ => ?_⟩
      obtain ⟨hlt, hall⟩ := hcf (by decide)
      refine ⟨hlt, fun r hr => ?_⟩
      rcases List.mem_cons.mp hr with h | h
      · subst h; simp [MAX_CONSECUTIVE_FAILURES]
      · exact hall r h

lemma runLoop_pw_stopped (l : List Status) :
    ∀ cf, cf < MAX_CONSECUTIVE_FAILURES → (runLoop_pw cf l).2.2 = true →
      ∃ rs r rest, (runLoop_pw cf l).1 = rs ++ [r] ∧
        r.events = [Event.notifyStopped] ∧
        r.failures = MAX_CONSECUTIVE_FAILURES ∧
        r.outcome = Status.FAILURE ∧
        (∀ x ∈ rs, x.failures < MAX_CONSECUTIVE_FAILURES ∧
          x.events.count Event.notifyStopped = 0) ∧
        l = ((rs ++ [r]).map CycleRec.outcome) ++ rest ∧
        (runLoop_pw cf l).2.1 = MAX_CONSECUTIVE_FAILURES := by
  induction l with
  | nil => intro cf _ hstop; simp [runLoop_pw] at hstop
  | cons s rest ih =>
    intro cf hcf hstop
    by_cases hs : s = Status.FAILURE
    · by_cases hmax : MAX_CONSECUTIVE_FAILURES ≤ cf + 1
      · have hcf1 : cf + 1 = MAX_CONSECUTIVE_FAILURES := by omega
        refine ⟨[], ⟨s, cf + 1, [Event.notifyStopped]⟩, rest, ?_⟩
        simp [runLoop_pw, hs, hmax, hcf1]
      · simp only [runLoop_pw, if_pos hs, if_neg hmax] at hstop ⊢
        obtain ⟨rs, r, rest', hrecs, hev, hfail, hout, hall, hsched, hcf'⟩ :=
          ih (cf + 1) (by omega) hstop
        refine ⟨⟨s, cf + 1, []⟩ :: rs, r, rest', ?_, hev, hfail, hout, ?_, ?_, hcf'⟩
        · simp [hrecs]
        · intro x hx
          rcases List.mem_cons.mp hx with h | h
          · subst h
            exact ⟨by simpa using Nat.lt_of_not_le hmax, by simp⟩
          · exact hall x h
        · simp only [List.cons_append, List.map_cons, List.cons_append]
          rw [← hsched]
    · simp only [runLoop_pw, if_neg hs] at hstop ⊢
      obtain ⟨rs, r, rest', hrecs, hev, hfail, hout, hall, hsched, hcf'⟩ :=
        ih 0 (by decide) hstop
      refine ⟨⟨s, 0, if s = Status.SUCCESS_FOUND then [Event.notifyAvailable] else []⟩ :: rs,
        r, rest', ?_, hev, hfail, hout, ?_, ?_, hcf'⟩
      · simp [hrecs]
      · intro x hx
        rcases List.mem_cons.mp hx with h | h
        · subst h
          refine ⟨by simp [MAX_CONSECUTIVE_FAILURES], ?_⟩
          by_cases hf : s = Status.SUCCESS_FOUND <;> simp [hf]
        · exact hall x h
      · simp only [List.cons_append, List.map_cons, List.cons_append]
        rw [← hsched]

lemma runLoop_pw_stoppedCount (l : List Status) :
    ∀ cf, stoppedCount (runLoop_pw cf l).1 =
      if (runLoop_pw cf l).2.2 then 1 else 0 := by
  induction l with
  | nil => intro cf; simp [runLoop_pw, stoppedCount]
  | cons s rest ih =>
    intro cf
    by_cases hs : s = Status.FAILURE
    · by_cases hmax : MAX_CONSECUTIVE_FAILURES ≤ cf + 1
      · simp [runLoop_pw, hs, hmax, stoppedCount]
      · simp [runLoop_pw, hs, hmax, stoppedCount] at ih ⊢
        exact ih (cf + 1)
    · by_cases hf : s = Status.SUCCESS_FOUND
      · simp [runLoop_pw, hs, hf, stoppedCount] at ih ⊢
        exact ih 0
      · simp [runLoop_pw, hs, hf, stoppedCount] at ih ⊢
        exact ih 0

lemma runLoop_pw_availableCount (l : List Status) :
    ∀ cf r, r ∈ (runLoop_pw cf l).1 →
      r.events.count Event.notifyAvailable =
        if r.outcome = Status.SUCCESS_FOUND then 1 else 0 := by
  induction l with
  | nil => intro cf r hr; simp [runLoop_pw] at hr
  | cons s rest ih =>
    intro cf r hr
    by_cases hs : s = Status.FAILURE
    · by_cases hmax : MAX_CONSECUTIVE_FAILURES ≤ cf + 1
      · simp [runLoop_pw, hs, hmax] at hr
        subst hr
        simp [hs]
      · simp only [runLoop_pw, if_pos hs, if_neg hmax] at hr
        rcases List.mem_cons.mp hr with h | h
        · subst h; simp [hs]
        · exact ih (cf + 1) r h
    · simp only [runLoop_pw, if_neg hs] at hr
      rcases List.mem_cons.mp hr with h | h
      · subst h
        by_cases hf : s = Status.SUCCESS_FOUND <;> simp [hf]
      · exact ih 0 r h

lemma send_no_creds (cfg : Config) (msg title : String) (net : PostOutcome)
    (h : (falsy cfg.PUSHOVER_API_TOKEN || falsy cfg.PUSHOVER_USER_KEY) = true) :
    (send_pushover_notification cfg msg title net).1 = [] := by
  simp [send_pushover_notification, h]

lemma runMain_target_only (envs : List CycleEnv) :
    ∀ cf (cfg cfg' : Config), cfg.TARGET_URL = cfg'.TARGET_URL →
      (runMain cfg cf envs).1.map (fun r => (r.outcome, r.failures)) =
        (runMain cfg' cf envs).1.map (fun r => (r.outcome, r.failures)) ∧
      (runMain cfg cf envs).2 = (runMain cfg' cf envs).2 := by
  induction envs with
  | nil => intro cf cfg cfg' _; exact ⟨rfl, rfl⟩
  | cons e rest ih =>
    intro cf cfg cfg' h
    simp only [runMain, h]
    cases hres : resultStatus (check_availability cfg'.TARGET_URL e.probe) with
    | none => simp
    | some status =>
      by_cases hs : status = Status.FAILURE
      · by_cases hmax : MAX_CONSECUTIVE_FAILURES ≤ cf + 1
        · simp [hs, hmax]
        · obtain ⟨h1, h2⟩ := ih (cf + 1) cfg cfg' h
          simp [hs, hmax, h1, h2]
      · obtain ⟨h1, h2⟩ := ih 0 cfg cfg' h
        simp [hs, h1, h2]

lemma runMain_no_creds (envs : List CycleEnv) :
    ∀ cf (cfg : Config),
      (falsy cfg.PUSHOVER_API_TOKEN || falsy cfg.PUSHOVER_USER_KEY) = true →
      ∀ r ∈ (runMain cfg cf envs).1, r.attempts = [] := by
  induction envs with
  | nil => intro cf cfg _ r hr; simp [runMain] at hr
  | cons e rest ih =>
    intro cf cfg h r hr
    simp only [runMain] at hr
    cases hres : resultStatus (check_availability cfg.TARGET_URL e.probe) with
    | none => rw [hres] at hr; simp at hr
    | some status =>
      rw [hres] at hr
      by_cases hs : status = Status.FAILURE
      · by_cases hmax : MAX_CONSECUTIVE_FAILURES ≤ cf + 1
        · simp [hs, hmax] at hr
          subst hr
          simp [send_no_creds cfg _ _ _ h]
        · simp only [if_pos hs, if_neg hmax] at hr
          rcases List.mem_cons.mp hr with hcase | hcase
          · subst hcase; rfl
          · exact ih (cf + 1) cfg h r hcase
      · simp only [if_neg hs] at hr
        rcases List.mem_cons.mp hr with hcase | hcase
        · subst hcase
          by_cases hf : status = Status.SUCCESS_FOUND
          · simp [hf, send_no_creds cfg _ _ _ h]
          · simp [hf]
        · exact ih 0 cfg h r hcase

lemma check_pw_total (url : Option String) (b : PwProbe) (hb : b.launch = StepRes.ok) :
    (resultStatus (check_availability url b)).isSome = true := by
  obtain ⟨bl, bg, ba, bd, bc, bm⟩ := b
  simp only at hb
  subst hb
  by_cases hurl : falsy url
  · simp [check_availability, resultStatus, hurl]
  · cases bg <;> cases ba <;> cases bd <;> cases bc <;> cases bm <;>
      simp [check_availability, resultStatus, hurl]

lemma check_sel_total (url : Option String) (sb : SelProbe) (hs : sb.setup = StepRes.ok) :
    (resultStatus (check_availability_selenium url sb)).isSome = true := by
  obtain ⟨ss, sg, sa, sc, sm⟩ := sb
  simp only at hs
  subst hs
  by_cases hurl : falsy url
  · simp [check_availability_selenium, resultStatus, hurl]
  · cases sg <;> cases sa <;> cases sc <;> cases sm <;>
      simp [check_availability_selenium, resultStatus, hurl]

/-- C1: in any probe cycle that reaches the marker-detection step (URL
configured, session up, navigation, anchors and view switch all succeeded),
the marker becoming visible within the bounded wait yields
`SUCCESS_NOT_FOUND`, and the wait window elapsing without the marker yields
`SUCCESS_FOUND` — the two wait results map onto exactly these two outcomes,
in both variants. -/
theorem C1_marker_decision (url : Option String) (b : PwProbe) (sb : SelProbe)
    (hurl : falsy url = false)
    (h1 : b.launch = StepRes.ok) (h2 : b.goto = StepRes.ok)
    (h3 : b.waitArrival = StepRes.ok) (h4 : b.waitDeparture = StepRes.ok)
    (h5 : b.clickListView = StepRes.ok)
    (h6 : sb.setup = StepRes.ok) (h7 : sb.get = StepRes.ok)
    (h8 : sb.waitAnchor = StepRes.ok) (h9 : sb.clickList = StepRes.ok) :
    (b.marker = StepRes.ok →
      resultStatus (check_availability url b) = some Status.SUCCESS_NOT_FOUND) ∧
    (b.marker = StepRes.timeout →
      resultStatus (check_availability url b) = some Status.SUCCESS_FOUND) ∧
    (b.marker = StepRes.ok ∨ b.marker = StepRes.timeout →
      resultStatus (check_availability url b) = some Status.SUCCESS_NOT_FOUND ∨
      resultStatus (check_availability url b) = some Status.SUCCESS_FOUND) ∧
    (sb.marker = StepRes.ok →
      resultStatus (check_availability_selenium url sb) = some Status.SUCCESS_NOT_FOUND) ∧
    (sb.marker = StepRes.timeout →
      resultStatus (check_availability_selenium url sb) = some Status.SUCCESS_FOUND) := by
  obtain ⟨bl, bg, ba, bd, bc, bm⟩ := b
  obtain ⟨ss, sg, sa, sc, sm⟩ := sb
  simp only at h1 h2 h3 h4 h5 h6 h7 h8 h9
  subst h1; subst h2; subst h3; subst h4; subst h5
  subst h6; subst h7; subst h8; subst h9
  refine ⟨?_, ?_, ?_, ?_, ?_⟩
  · intro hm; simp only at hm; subst hm
    simp [check_availability, resultStatus, hurl]
  · intro hm; simp only at hm; subst hm
    simp [check_availability, resultStatus, hurl]
  · rintro (hm | hm) <;> (simp only at hm; subst hm)
    · left; simp [check_availability, resultStatus, hurl]
    · right; simp [check_availability, resultStatus, hurl]
  · intro hm; simp only at hm; subst hm
    simp [check_availability_selenium, resultStatus, hurl]
  · intro hm; simp only at hm; subst hm
    simp [check_availability_selenium, resultStatus, hurl]

/-- Witness for C1 at a concrete configured URL: marker visible gives
`SUCCESS_NOT_FOUND` (Playwright), marker wait elapsing gives
`SUCCESS_FOUND` (Selenium). -/
theorem C1_marker_decision_witness :
    resultStatus (check_availability (some "https://x")
        ⟨StepRes.ok, StepRes.ok, StepRes.ok, StepRes.ok, StepRes.ok, StepRes.ok⟩) =
      some Status.SUCCESS_NOT_FOUND ∧
    resultStatus (check_availability_selenium (some "https://x")
        ⟨StepRes.ok, StepRes.ok, StepRes.ok, StepRes.ok, StepRes.timeout⟩) =
      some Status.SUCCESS_FOUND :=
  ⟨(C1_marker_decision (some "https://x")
      ⟨StepRes.ok, StepRes.ok, StepRes.ok, StepRes.ok, StepRes.ok, StepRes.ok⟩
      ⟨StepRes.ok, StepRes.ok, StepRes.ok, StepRes.ok, StepRes.timeout⟩
      (by decide) rfl rfl rfl rfl rfl rfl rfl rfl rfl).1 rfl,
   (C1_marker_decision (some "https://x")
      ⟨StepRes.ok, StepRes.ok, StepRes.ok, StepRes.ok, StepRes.ok, StepRes.ok⟩
      ⟨StepRes.ok, StepRes.ok, StepRes.ok, StepRes.ok, StepRes.timeout⟩
      (by decide) rfl rfl rfl rfl rfl rfl rfl rfl rfl).2.2.2.2 rfl⟩

/-- C2 counterexample: with the target URL configured, an exception raised
while acquiring the browser session (which both variants perform before
entering their `try` block) escapes `check_availability` — the classifier
does not return one of the three outcomes, refuting the claim that no
behaviour of the probe lets an exception past the classifier boundary. -/
theorem C2_escape_counterexample :
    check_availability (some "https://x")
        ⟨StepRes.err, StepRes.ok, StepRes.ok, StepRes.ok, StepRes.ok, StepRes.ok⟩ =
      CallResult.raised [Effect.launchBrowser] ∧
    resultStatus (check_availability (some "https://x")
        ⟨StepRes.err, StepRes.ok, StepRes.ok, StepRes.ok, StepRes.ok, StepRes.ok⟩) = none ∧
    check_availability_selenium (some "https://x")
        ⟨StepRes.err, StepRes.ok, StepRes.ok, StepRes.ok, StepRes.ok⟩ =
      CallResult.raised [Effect.launchBrowser] := by
  decide

/-- C2 (amended): for every configuration and every probe behaviour in
which the browser-session acquisition itself does not raise, one call of
the classifier returns exactly one of the three outcomes
`SUCCESS_FOUND / SUCCESS_NOT_FOUND / FAILURE` and lets no exception escape
— all timeouts, crashes and unexpected errors in the probe steps inside
the `try` are caught; only a raise during session setup, which both
variants perform before the `try`, escapes to the caller. -/
theorem C2_totality_after_setup (url : Option String) (b : PwProbe) (sb : SelProbe)
    (hb : b.launch = StepRes.ok) (hsb : sb.setup = StepRes.ok) :
    (resultStatus (check_availability url b) = some Status.SUCCESS_FOUND ∨
     resultStatus (check_availability url b) = some Status.SUCCESS_NOT_FOUND ∨
     resultStatus (check_availability url b) = some Status.FAILURE) ∧
    (resultStatus (check_availability_selenium url sb) = some Status.SUCCESS_FOUND ∨
     resultStatus (check_availability_selenium url sb) = some Status.SUCCESS_NOT_FOUND ∨
     resultStatus (check_availability_selenium url sb) = some Status.FAILURE) := by
  constructor
  · have h := check_pw_total url b hb
    cases hres : resultStatus (check_availability url b) with
    | none => rw [hres] at h; simp at h
    | some s => cases s <;> simp
  · have h := check_sel_total url sb hsb
    cases hres : resultStatus (check_availability_selenium url sb) with
    | none => rw [hres] at h; simp at h
    | some s => cases s <;> simp

/-- Witness for C2 (amended): with the session up and every later step
erroring, both classifiers still return `'FAILURE'` rather than raising. -/
theorem C2_totality_after_setup_witness :
    resultStatus (check_availability (some "https://x")
        ⟨StepRes.ok, StepRes.err, StepRes.ok, StepRes.ok, StepRes.ok, StepRes.ok⟩) =
      some Status.SUCCESS_FOUND ∨
    resultStatus (check_availability (some "https://x")
        ⟨StepRes.ok, StepRes.err, StepRes.ok, StepRes.ok, StepRes.ok, StepRes.ok⟩) =
      some Status.SUCCESS_NOT_FOUND ∨
    resultStatus (check_availability (some "https://x")
        ⟨StepRes.ok, StepRes.err, StepRes.ok, StepRes.ok, StepRes.ok, StepRes.ok⟩) =
      some Status.FAILURE :=
  (C2_totality_after_setup (some "https://x")
    ⟨StepRes.ok, StepRes.err, StepRes.ok, StepRes.ok, StepRes.ok, StepRes.ok⟩
    ⟨StepRes.ok, StepRes.ok, StepRes.ok, StepRes.ok, StepRes.ok⟩ rfl rfl).1

/-- C6: whenever `TARGET_URL` is unset (or empty), every classifier call of
either variant returns `'FAILURE'` immediately with an empty effect trace:
no browser session is acquired, no navigation is attempted, and no
screenshot is written. -/
theorem C6_fail_fast (url : Option String) (b : PwProbe) (sb : SelProbe)
    (h : falsy url = true) :
    check_availability url b = CallResult.ret Status.FAILURE [] ∧
    check_availability_selenium url sb = CallResult.ret Status.FAILURE [] := by
  constructor <;> simp [check_availability, check_availability_selenium, h]

/-- Witness for C6 with `TARGET_URL` unset and a probe that would have
succeeded. -/
theorem C6_fail_fast_witness :
    check_availability none
        ⟨StepRes.ok, StepRes.ok, StepRes.ok, StepRes.ok, StepRes.ok, StepRes.timeout⟩ =
      CallResult.ret Status.FAILURE [] ∧
    check_availability_selenium none
        ⟨StepRes.ok, StepRes.ok, StepRes.ok, StepRes.ok, StepRes.timeout⟩ =
      CallResult.ret Status.FAILURE [] :=
  C6_fail_fast none
    ⟨StepRes.ok, StepRes.ok, StepRes.ok, StepRes.ok, StepRes.ok, StepRes.timeout⟩
    ⟨StepRes.ok, StepRes.ok, StepRes.ok, StepRes.ok, StepRes.timeout⟩ (by decide)

/-- C9 counterexample: a cycle with `TARGET_URL` unset has outcome
`'FAILURE'` but an empty effect trace — no image capture is written — so
not every `FAILED` cycle writes a screenshot. -/
theorem C9_no_screenshot_counterexample :
    resultStatus (check_availability none
        ⟨StepRes.ok, StepRes.ok, StepRes.ok, StepRes.ok, StepRes.ok, StepRes.ok⟩) =
      some Status.FAILURE ∧
    callEffects (check_availability none
        ⟨StepRes.ok, StepRes.ok, StepRes.ok, StepRes.ok, StepRes.ok, StepRes.ok⟩) = [] ∧
    resultStatus (check_availability_selenium none
        ⟨StepRes.ok, StepRes.ok, StepRes.ok, StepRes.ok, StepRes.ok⟩) =
      some Status.FAILURE ∧
    callEffects (check_availability_selenium none
        ⟨StepRes.ok, StepRes.ok, StepRes.ok, StepRes.ok, StepRes.ok⟩) = [] := by
  decide

/-- C9 (amended): every probe cycle that passes the `TARGET_URL`
precondition and returns `'FAILURE'` writes exactly one full-page capture,
always to the same fixed path `error_screenshot.png` (so successive
failures overwrite it); the fail-fast `'FAILURE'` on a missing
`TARGET_URL` writes none. -/
theorem C9_screenshot_on_probe_failure (url : Option String) (b : PwProbe) (sb : SelProbe)
    (hurl : falsy url = false) :
    (resultStatus (check_availability url b) = some Status.FAILURE →
      callEffects (check_availability url b) =
        [Effect.launchBrowser, Effect.navigate (url.getD ""),
          Effect.screenshotWrite "error_screenshot.png"]) ∧
    (resultStatus (check_availability_selenium url sb) = some Status.FAILURE →
      callEffects (check_availability_selenium url sb) =
        [Effect.launchBrowser, Effect.navigate (url.getD ""),
          Effect.screenshotWrite "error_screenshot.png"]) := by
  constructor
  · obtain ⟨bl, bg, ba, bd, bc, bm⟩ := b
    cases bl <;> cases bg <;> cases ba <;> cases bd <;> cases bc <;> cases bm <;>
      simp [check_availability, resultStatus, callEffects, hurl]
  · obtain ⟨ss, sg, sa, sc, sm⟩ := sb
    cases ss <;> cases sg <;> cases sa <;> cases sc <;> cases sm <;>
      simp [check_availability_selenium, resultStatus, callEffects, hurl]

/-- Witness for C9 (amended): a navigation timeout in either variant
produces `'FAILURE'` with exactly one screenshot write to the fixed path. -/
theorem C9_screenshot_on_probe_failure_witness :
    callEffects (check_availability (some "https://x")
        ⟨StepRes.ok, StepRes.timeout, StepRes.ok, StepRes.ok, StepRes.ok, StepRes.ok⟩) =
      [Effect.launchBrowser, Effect.navigate "https://x",
        Effect.screenshotWrite "error_screenshot.png"] ∧
    callEffects (check_availability_selenium (some "https://x")
        ⟨StepRes.ok, StepRes.timeout, StepRes.ok, StepRes.ok, StepRes.ok⟩) =
      [Effect.launchBrowser, Effect.navigate "https://x",
        Effect.screenshotWrite "error_screenshot.png"] :=
  ⟨(C9_screenshot_on_probe_failure (some "https://x")
      ⟨StepRes.ok, StepRes.timeout, StepRes.ok, StepRes.ok, StepRes.ok, StepRes.ok⟩
      ⟨StepRes.ok, StepRes.timeout, StepRes.ok, StepRes.ok, StepRes.ok⟩
      (by decide)).1 (by decide),
   (C9_screenshot_on_probe_failure (some "https://x")
      ⟨StepRes.ok, StepRes.timeout, StepRes.ok, StepRes.ok, StepRes.ok, StepRes.ok⟩
      ⟨StepRes.ok, StepRes.timeout, StepRes.ok, StepRes.ok, StepRes.ok⟩
      (by decide)).2 (by decide)⟩

/-- C3: over any finite outcome schedule that the loop processes in full,
the `consecutive_failures` counter after the last cycle equals the length
of the trailing run of `'FAILURE'` outcomes, in both variants; and in every
cycle the counter is incremented by exactly one on `'FAILURE'` and reset to
zero on any other outcome. -/
theorem C3_failure_counter_invariant (outcomes : List Status)
    (hfull : (runLoop_pw 0 outcomes).1.length = outcomes.length) :
    (runLoop_pw 0 outcomes).2.1 = trailingFailures outcomes ∧
    (runLoop_sel 0 outcomes).2.1 = trailingFailures outcomes ∧
    (∀ cf s rest, ((runLoop_pw cf (s :: rest)).1.head?).map CycleRec.failures =
      some (if s = Status.FAILURE then cf + 1 else 0)) ∧
    (∀ cf s rest, ((runLoop_sel cf (s :: rest)).1.head?).map CycleRec.failures =
      some (if s = Status.FAILURE then cf + 1 else 0)) := by
  have hmain : (runLoop_pw 0 outcomes).2.1 = trailingFailures outcomes := by
    rw [runLoop_pw_full_cf outcomes 0 hfull, cfRun_zero_eq_trailing]
  have hstep : ∀ cf s rest, ((runLoop_pw cf (s :: rest)).1.head?).map CycleRec.failures =
      some (if s = Status.FAILURE then cf + 1 else 0) := by
    intro cf s rest
    by_cases hs : s = Status.FAILURE
    · by_cases hmax : MAX_CONSECUTIVE_FAILURES ≤ cf + 1 <;> simp [runLoop_pw, hs, hmax]
    · simp [runLoop_pw, hs]
  refine ⟨hmain, ?_, hstep, ?_⟩
  · rw [← runLoop_pw_eq_sel outcomes 0]; exact hmain
  · intro cf s rest
    rw [← runLoop_pw_eq_sel (s :: rest) cf]
    exact hstep cf s rest

/-- Witness for C3 on the schedule `FAILURE, SUCCESS_NOT_FOUND, FAILURE`
(the spec's Scenario E): the loop runs all three cycles and ends with
counter 1, the trailing-run length. -/
theorem C3_failure_counter_invariant_witness :
    (runLoop_pw 0 [Status.FAILURE, Status.SUCCESS_NOT_FOUND, Status.FAILURE]).1.length =
      [Status.FAILURE, Status.SUCCESS_NOT_FOUND, Status.FAILURE].length ∧
    (runLoop_pw 0 [Status.FAILURE, Status.SUCCESS_NOT_FOUND, Status.FAILURE]).2.1 =
      trailingFailures [Status.FAILURE, Status.SUCCESS_NOT_FOUND, Status.FAILURE] :=
  ⟨by decide,
   (C3_failure_counter_invariant
      [Status.FAILURE, Status.SUCCESS_NOT_FOUND, Status.FAILURE] (by decide)).1⟩

/-- C4: the monitor loop stops fatally exactly when the counter reaches
`MAX_CONSECUTIVE_FAILURES`: the fatal flag is set iff some executed cycle's
counter reached the ceiling; exactly one "stopped" notification is sent
over the whole run iff the loop stopped; when it stops, the stopping cycle
is the last cycle executed, its counter equals the ceiling, its events are
exactly the one "stopped" notification, every earlier cycle was below the
ceiling, and the remaining schedule is not processed; when it does not
stop, every cycle of the schedule is processed.  The Selenium loop is the
same function of the schedule. -/
theorem C4_fatal_stop (outcomes : List Status) :
    ((runLoop_pw 0 outcomes).2.2 = true ↔
      ∃ r ∈ (runLoop_pw 0 outcomes).1, MAX_CONSECUTIVE_FAILURES ≤ r.failures) ∧
    stoppedCount (runLoop_pw 0 outcomes).1 =
      (if (runLoop_pw 0 outcomes).2.2 then 1 else 0) ∧
    ((runLoop_pw 0 outcomes).2.2 = true →
      ∃ rs r rest, (runLoop_pw 0 outcomes).1 = rs ++ [r] ∧
        r.events = [Event.notifyStopped] ∧
        r.failures = MAX_CONSECUTIVE_FAILURES ∧
        r.outcome = Status.FAILURE ∧
        (∀ x ∈ rs, x.failures < MAX_CONSECUTIVE_FAILURES) ∧
        outcomes = ((rs ++ [r]).map CycleRec.outcome) ++ rest) ∧
    ((runLoop_pw 0 outcomes).2.2 = false →
      (runLoop_pw 0 outcomes).1.map CycleRec.outcome = outcomes) ∧
    runLoop_sel 0 outcomes = runLoop_pw 0 outcomes := by
  refine ⟨?_, runLoop_pw_stoppedCount outcomes 0, ?_, ?_, (runLoop_pw_eq_sel outcomes 0).symm⟩
  · constructor
    · intro h
      obtain ⟨rs, r, rest, hrecs, hev, hfail, hout, hall, hsched, hcf⟩ :=
        runLoop_pw_stopped outcomes 0 (by decide) h
      exact ⟨r, by simp [hrecs], by omega⟩
    · rintro ⟨r, hr, hge⟩
      cases hflag : (runLoop_pw 0 outcomes).2.2 with
      | true => rfl
      | false =>
        obtain ⟨_, hcf⟩ := runLoop_pw_not_stopped outcomes 0 hflag
        obtain ⟨_, hall⟩ := hcf (by decide)
        exact absurd hge (Nat.not_le.mpr (hall r hr))
  · intro h
    obtain ⟨rs, r, rest, hrecs, hev, hfail, hout, hall, hsched, hcf⟩ :=
      runLoop_pw_stopped outcomes 0 (by decide) h
    exact ⟨rs, r, rest, hrecs, hev, hfail, hout, fun x hx => (hall x hx).1, hsched⟩
  · intro h
    exact (runLoop_pw_not_stopped outcomes 0 h).1

/-- Witness for C4 on the spec's Scenario D schedule of three consecutive
failures: the loop stops fatally, with the structural conclusion
instantiated there. -/
theorem C4_fatal_stop_witness :
    (runLoop_pw 0 [Status.FAILURE, Status.FAILURE, Status.FAILURE]).2.2 = true ∧
    (∃ rs r rest,
      (runLoop_pw 0 [Status.FAILURE, Status.FAILURE, Status.FAILURE]).1 = rs ++ [r] ∧
      r.events = [Event.notifyStopped] ∧
      r.failures = MAX_CONSECUTIVE_FAILURES ∧
      r.outcome = Status.FAILURE ∧
      (∀ x ∈ rs, x.failures < MAX_CONSECUTIVE_FAILURES) ∧
      [Status.FAILURE, Status.FAILURE, Status.FAILURE] =
        ((rs ++ [r]).map CycleRec.outcome) ++ rest) :=
  ⟨by decide,
   (C4_fatal_stop [Status.FAILURE, Status.FAILURE, Status.FAILURE]).2.2.1 (by decide)⟩

/-- C5: in every executed cycle of either variant's loop, exactly one
"available" notification attempt is made if the cycle's outcome is
`SUCCESS_FOUND` and none otherwise — in particular `SUCCESS_NOT_FOUND`
cycles notify nothing, and each `SUCCESS_FOUND` cycle independently fires
one fresh attempt regardless of earlier cycles. -/
theorem C5_notify_iff_found (outcomes : List Status) :
    (∀ r ∈ (runLoop_pw 0 outcomes).1,
      r.events.count Event.notifyAvailable =
        if r.outcome = Status.SUCCESS_FOUND then 1 else 0) ∧
    (∀ r ∈ (runLoop_sel 0 outcomes).1,
      r.events.count Event.notifyAvailable =
        if r.outcome = Status.SUCCESS_FOUND then 1 else 0) := by
  constructor
  · exact fun r hr => runLoop_pw_availableCount outcomes 0 r hr
  · intro r hr
    rw [← runLoop_pw_eq_sel outcomes 0] at hr
    exact runLoop_pw_availableCount outcomes 0 r hr

/-- Witness for C5: on a schedule of two consecutive `SUCCESS_FOUND`
cycles, the second `SUCCESS_FOUND` record still carries exactly one
availability notification. -/
theorem C5_notify_iff_found_witness :
    (⟨Status.SUCCESS_FOUND, 0, [Event.notifyAvailable]⟩ : CycleRec) ∈
      (runLoop_pw 0 [Status.SUCCESS_FOUND, Status.SUCCESS_FOUND]).1 ∧
    (⟨Status.SUCCESS_FOUND, 0, [Event.notifyAvailable]⟩ : CycleRec).events.count
        Event.notifyAvailable =
      if (⟨Status.SUCCESS_FOUND, 0, [Event.notifyAvailable]⟩ : CycleRec).outcome =
          Status.SUCCESS_FOUND then 1 else 0 :=
  ⟨by decide,
   (C5_notify_iff_found [Status.SUCCESS_FOUND, Status.SUCCESS_FOUND]).1
     ⟨Status.SUCCESS_FOUND, 0, [Event.notifyAvailable]⟩ (by decide)⟩

/-- C7: two runs of the composed monitor loop that differ only in whether
the Pushover credentials are present produce identical classifier outcomes,
identical counter trajectories, and identical termination (cycles run,
fatal stop or crash); the classifier itself reads only the target URL; and
when credentials are absent every cycle's POST-attempt list is empty — the
side effect is suppressed, never raised as an error. -/
theorem C7_credential_noninterference (cfg cfg' : Config) (envs : List CycleEnv)
    (htarget : cfg.TARGET_URL = cfg'.TARGET_URL) :
    (runMain cfg 0 envs).1.map (fun r => (r.outcome, r.failures)) =
      (runMain cfg' 0 envs).1.map (fun r => (r.outcome, r.failures)) ∧
    (runMain cfg 0 envs).2 = (runMain cfg' 0 envs).2 ∧
    (∀ b : PwProbe, check_availability cfg.TARGET_URL b =
      check_availability cfg'.TARGET_URL b) ∧
    ((falsy cfg.PUSHOVER_API_TOKEN || falsy cfg.PUSHOVER_USER_KEY) = true →
      ∀ r ∈ (runMain cfg 0 envs).1, r.attempts = []) := by
  obtain ⟨h1, h2⟩ := runMain_target_only envs 0 cfg cfg' htarget
  exact ⟨h1, h2, fun b => by rw [htarget], runMain_no_creds envs 0 cfg⟩

/-- Witness for C7: one successful cycle, run once without credentials and
once with them — outcome and counter agree, and the credential-less run
makes no POST attempt. -/
theorem C7_credential_noninterference_witness :
    (runMain ⟨some "https://x", none, none⟩ 0
        [⟨⟨StepRes.ok, StepRes.ok, StepRes.ok, StepRes.ok, StepRes.ok, StepRes.timeout⟩,
          PostOutcome.status 200⟩]).1.map (fun r => (r.outcome, r.failures)) =
      (runMain ⟨some "https://x", some "t", some "k"⟩ 0
        [⟨⟨StepRes.ok, StepRes.ok, StepRes.ok, StepRes.ok, StepRes.ok, StepRes.timeout⟩,
          PostOutcome.status 200⟩]).1.map (fun r => (r.outcome, r.failures)) ∧
    (⟨Status.SUCCESS_FOUND, 0, []⟩ : MainRec) ∈
      (runMain ⟨some "https://x", none, none⟩ 0
        [⟨⟨StepRes.ok, StepRes.ok, StepRes.ok, StepRes.ok, StepRes.ok, StepRes.timeout⟩,
          PostOutcome.status 200⟩]).1 ∧
    (⟨Status.SUCCESS_FOUND, 0, []⟩ : MainRec).attempts = [] :=
  ⟨(C7_credential_noninterference ⟨some "https://x", none, none⟩
      ⟨some "https://x", some "t", some "k"⟩
      [⟨⟨StepRes.ok, StepRes.ok, StepRes.ok, StepRes.ok, StepRes.ok, StepRes.timeout⟩,
        PostOutcome.status 200⟩] rfl).1,
   by decide,
   (C7_credential_noninterference ⟨some "https://x", none, none⟩
      ⟨some "https://x", some "t", some "k"⟩
      [⟨⟨StepRes.ok, StepRes.ok, StepRes.ok, StepRes.ok, StepRes.ok, StepRes.timeout⟩,
        PostOutcome.status 200⟩] rfl).2.2.2 (by decide)
     ⟨Status.SUCCESS_FOUND, 0, []⟩ (by decide)⟩

/-- C8: every call of `send_pushover_notification` makes at most one POST
attempt; any attempt carries exactly the configured token and user key, the
given message and title, priority 1, and the `url`/`url_title` pair exactly
when the message contains "book it now"; the attempts made are independent
of the response or network outcome (no retry), the function returns for
every outcome (nothing raises into the caller), and the Selenium variant
makes the same attempts. -/
theorem C8_notifier_contract (cfg : Config) (message title : String) (net : PostOutcome) :
    (send_pushover_notification cfg message title net).1.length ≤ 1 ∧
    (∀ p ∈ (send_pushover_notification cfg message title net).1,
      p.token = cfg.PUSHOVER_API_TOKEN.getD "" ∧
      p.user = cfg.PUSHOVER_USER_KEY.getD "" ∧
      p.message = message ∧
      p.title = title ∧
      p.priority = 1 ∧
      (strContains message "book it now" = true →
        p.url = cfg.TARGET_URL ∧ p.url_title = some "Book Now!") ∧
      (strContains message "book it now" = false →
        p.url = none ∧ p.url_title = none)) ∧
    (∀ net', (send_pushover_notification cfg message title net').1 =
      (send_pushover_notification cfg message title net).1) ∧
    (send_pushover_notification_selenium cfg message title net).1 =
      (send_pushover_notification cfg message title net).1 := by
  by_cases hcred : (falsy cfg.PUSHOVER_API_TOKEN || falsy cfg.PUSHOVER_USER_KEY) = true
  · simp [send_pushover_notification, send_pushover_notification_selenium, hcred]
  · rw [Bool.not_eq_true] at hcred
    by_cases hbook : strContains message "book it now" = true
    · simp [send_pushover_notification, send_pushover_notification_selenium, hcred, hbook]
    · rw [Bool.not_eq_true] at hbook
      simp [send_pushover_notification, send_pushover_notification_selenium, hcred, hbook]

/-- Witness for C8: with credentials set and the real availability message
(which contains "book it now"), the one attempted payload is present, has
priority 1, and carries the deep link to the target URL. -/
theorem C8_notifier_contract_witness :
    (⟨"t", "k", notification_message, "Campsite Available!", 1, some "https://x",
        some "Book Now!"⟩ : Payload) ∈
      (send_pushover_notification ⟨some "https://x", some "t", some "k"⟩
        notification_message "Campsite Available!" (PostOutcome.status 200)).1 ∧
    (⟨"t", "k", notification_message, "Campsite Available!", 1, some "https://x",
        some "Book Now!"⟩ : Payload).priority = 1 ∧
    (⟨"t", "k", notification_message, "Campsite Available!", 1, some "https://x",
        some "Book Now!"⟩ : Payload).url = some "https://x" ∧
    (⟨"t", "k", notification_message, "Campsite Available!", 1, some "https://x",
        some "Book Now!"⟩ : Payload).url_title = some "Book Now!" := by
  have h := C8_notifier_contract ⟨some "https://x", some "t", some "k"⟩
    notification_message "Campsite Available!" (PostOutcome.status 200)
  have hmem : (⟨"t", "k", notification_message, "Campsite Available!", 1, some "https://x",
      some "Book Now!"⟩ : Payload) ∈
      (send_pushover_notification ⟨some "https://x", some "t", some "k"⟩
        notification_message "Campsite Available!" (PostOutcome.status 200)).1 := by
    decide
  have hp := h.2.1 _ hmem
  exact ⟨hmem, hp.2.2.2.2.1, (hp.2.2.2.2.2.1 (by decide)).1, (hp.2.2.2.2.2.1 (by decide)).2⟩

/-- C10: the two variants implement the same machine — on equal probe
signals (setup, page load, anchors, view switch, marker wait) the two
classifiers return the same result, and on equal outcome schedules the two
monitor loops produce identical cycle records (counters and notification
decisions) and stop after the same cycle. -/
theorem C10_variant_equivalence :
    (∀ (url : Option String) (s : ProbeSignals),
      check_availability url (toPw s) = check_availability_selenium url (toSel s)) ∧
    (∀ (cf : Nat) (outcomes : List Status),
      runLoop_pw cf outcomes = runLoop_sel cf outcomes) := by
  constructor
  · intro url s
    obtain ⟨su, nv, an, vs, mk⟩ := s
    by_cases hurl : falsy url
    · simp [check_availability, check_availability_selenium, hurl]
    · cases su <;> cases nv <;> cases an <;> cases vs <;> cases mk <;>
        simp [check_availability, check_availability_selenium, toPw, toSel, hurl]
  · exact fun cf outcomes => runLoop_pw_eq_sel outcomes cf
